import Mathlib

/-!
Verification of the identifier-resolution and retry layer of linear-mcp
(`src/services/identifier-resolver.ts`, `src/services/linear-service.ts`).
The TypeScript methods are shallowly embedded as pure Lean functions:
JavaScript `Map`s become association lists, `Date.now()` becomes an explicit
`now : Nat` argument, async remote GraphQL requests become lookups in an
explicit `Remote` environment together with a trace of the calls issued, and
thrown `ApiError`s become `Except` errors paired with the mutated state.
-/

namespace LinearMcp

/-! ## JavaScript string primitives -/

/-- Splits a character list at every occurrence of `sep`, mirroring
JavaScript `String.prototype.split` with a one-character separator
(adjacent separators and separators at either end produce empty pieces). -/
def splitChar (sep : Char) : List Char → List (List Char)
  | [] => [[]]
  | c :: cs =>
    if c = sep then [] :: splitChar sep cs
    else
      match splitChar sep cs with
      | [] => [[c]]
      | h :: t => (c :: h) :: t

/-- JavaScript `s.split(sep)` for a one-character separator. -/
def jsSplit (sep : Char) (s : String) : List String :=
  (splitChar sep s.toList).map fun l => String.mk l

/-- JavaScript `s.includes(c)` for a one-character needle. -/
def jsIncludes (s : String) (c : Char) : Bool :=
  s.toList.contains c

/-- Numeric value of a base-16 digit character, if it is one. -/
def hexDigitVal (c : Char) : Option Nat :=
  if '0' ≤ c ∧ c ≤ '9' then some (c.toNat - '0'.toNat)
  else if 'a' ≤ c ∧ c ≤ 'f' then some (c.toNat - 'a'.toNat + 10)
  else if 'A' ≤ c ∧ c ≤ 'F' then some (c.toNat - 'A'.toNat + 10)
  else none

/-- Numeric value of a base-10 digit character, if it is one. -/
def decDigitVal (c : Char) : Option Nat :=
  if '0' ≤ c ∧ c ≤ '9' then some (c.toNat - '0'.toNat) else none

/-- Longest prefix of digit values recognised by `dv`. -/
def takeDigits (dv : Char → Option Nat) : List Char → List Nat
  | [] => []
  | c :: cs =>
    match dv c with
    | none => []
    | some d => d :: takeDigits dv cs

/-- Value of a digit-prefix parse: `none` models `NaN` (no digits at all). -/
def digitsToInt (radix : Nat) (dv : Char → Option Nat) (sign : Int)
    (cs : List Char) : Option Int :=
  match takeDigits dv cs with
  | [] => none
  | ds => some (sign * (ds.foldl (fun a d => a * radix + d) 0 : Nat))

/-- JavaScript `parseInt(s)` with no radix argument: skip leading whitespace,
read an optional sign, honour a `0x`/`0X` prefix as hexadecimal, then take the
longest digit prefix; `none` models `NaN`. -/
def jsParseInt (s : String) : Option Int :=
  let cs := s.toList.dropWhile Char.isWhitespace
  match cs with
  | '-' :: rest =>
    match rest with
    | '0' :: 'x' :: r => digitsToInt 16 hexDigitVal (-1) r
    | '0' :: 'X' :: r => digitsToInt 16 hexDigitVal (-1) r
    | r => digitsToInt 10 decDigitVal (-1) r
  | '+' :: rest =>
    match rest with
    | '0' :: 'x' :: r => digitsToInt 16 hexDigitVal 1 r
    | '0' :: 'X' :: r => digitsToInt 16 hexDigitVal 1 r
    | r => digitsToInt 10 decDigitVal 1 r
  | '0' :: 'x' :: r => digitsToInt 16 hexDigitVal 1 r
  | '0' :: 'X' :: r => digitsToInt 16 hexDigitVal 1 r
  | r => digitsToInt 10 decDigitVal 1 r

/-- JavaScript `s.toLowerCase()` (ASCII case folding, applied characterwise);
expressed over the character list so that it reduces definitionally. -/
def jsToLower (s : String) : String :=
  String.mk (s.toList.map Char.toLower)

/-- Hexadecimal digit test matching the character class `[0-9a-f]` with the
case-insensitive `/i` flag of the source regex. -/
def isHexChar (c : Char) : Bool :=
  ('0' ≤ c && c ≤ '9') || ('a' ≤ c && c ≤ 'f') || ('A' ≤ c && c ≤ 'F')

/-- The canonical backend-ID shape test used at the top of every resolve
operation: the regex
`^[0-9a-f]{8}-[0-9a-f]{4}-[0-9a-f]{4}-[0-9a-f]{4}-[0-9a-f]{12}$/i`,
expressed as: exactly five hyphen-separated groups of hex characters with
lengths 8, 4, 4, 4, 12. -/
def isUuidShaped (s : String) : Bool :=
  match splitChar '-' s.toList with
  | [a, b, c, d, e] =>
    a.length == 8 && b.length == 4 && c.length == 4 && d.length == 4 &&
      e.length == 12 && (a ++ b ++ c ++ d ++ e).all isHexChar
  | _ => false

/-! ## JavaScript `Map` as an association list -/

/-- `Map.prototype.get`: value of the first (only) entry with key `k`. -/
def mapGet (m : List (String × α)) (k : String) : Option α :=
  (m.find? fun p => p.1 == k).map Prod.snd

/-- `Map.prototype.set`: overwrite the entry with key `k` if present,
otherwise append a new one (JS `Map` keeps insertion order). -/
def mapSet (m : List (String × α)) (k : String) (v : α) : List (String × α) :=
  if (m.find? fun p => p.1 == k).isSome then
    m.map fun p => if p.1 == k then (k, v) else p
  else m ++ [(k, v)]

/-! ## Errors, cache and remote environment -/

/-- JSON-RPC error codes referenced by the resolver and retry wrapper
(`JsonRpcErrorCodes.INVALID_PARAMS` and `JsonRpcErrorCodes.SERVER_ERROR` from
`types/json-rpc.ts`); the claims only depend on which constant is used, so the
standard JSON-RPC 2.0 values are taken. -/
def INVALID_PARAMS : Int := -32602

/-- See `INVALID_PARAMS`. -/
def SERVER_ERROR : Int := -32000

/-- The thrown `ApiError(statusCode, message, jsonRpcCode, data)`; the only
`data` payload ever attached in this layer is `{ originalError: message }`,
modelled as the optional original-error string. -/
structure ApiError where
  statusCode : Nat
  message : String
  jsonRpcCode : Int
  data : Option String
deriving DecidableEq, Repr

/-- The `ResolverCache` record of five maps. -/
structure ResolverCache where
  teams : List (String × String)
  projects : List (String × String)
  states : List (String × List (String × String))
  labels : List (String × List (String × String))
  users : List (String × String)
deriving DecidableEq, Repr

/-- The initial cache value (all maps empty). -/
def emptyCache : ResolverCache := ⟨[], [], [], [], []⟩

/-- Mutable fields of `IdentifierResolver`: the cache plus the global
`lastCacheRefresh` timestamp (initially `0`). -/
structure ResolverState where
  cache : ResolverCache
  lastCacheRefresh : Nat
deriving DecidableEq, Repr

/-- The freshly constructed resolver state. -/
def freshState : ResolverState := ⟨emptyCache, 0⟩

/-- `cacheTimeout = 5 * 60 * 1000` milliseconds. -/
def cacheTimeout : Nat := 5 * 60 * 1000

/-- `shouldRefreshCache(): Date.now() - this.lastCacheRefresh > this.cacheTimeout`.
Natural subtraction agrees with the JS value here: when `lastCacheRefresh > now`
both sides of the comparison are non-positive and the test is false. -/
def shouldRefreshCache (now : Nat) (s : ResolverState) : Bool :=
  cacheTimeout < now - s.lastCacheRefresh

/-- An `{id, name}` node returned by the team-states / team-labels queries. -/
structure NamedNode where
  id : String
  name : String
deriving DecidableEq, Repr

/-- The remote GraphQL surface consumed by the resolver, as response data:
`teamByKey` and `userByEmail` give the id of the first node of the filtered
query (or `none` for an empty node list); `projectsByName` gives the id list of
the project query for a name and optional team filter; `teamStates` /
`teamLabels` give `team?.states?.nodes` / `team?.labels?.nodes` (`none` models
a null team, which the source defaults to `[]`); `issueByIdentifier` gives
`teams.nodes[0]` (`none` when the team key matches nothing) containing the
list of matching issue ids. -/
structure Remote where
  teamByKey : String → Option String
  projectsByName : String → Option String → List String
  userByEmail : String → Option String
  teamStates : String → Option (List NamedNode)
  teamLabels : String → Option (List NamedNode)
  issueByIdentifier : String → Int → Option (List String)

/-- One remote GraphQL request issued by a resolve operation. -/
inductive RemoteCall where
  | teamByKey (key : String)
  | projectsByName (name : String) (teamId : Option String)
  | userByEmail (email : String)
  | teamStates (teamId : String)
  | teamLabels (teamId : String)
  | issueByIdentifier (teamKey : String) (number : Int)
deriving DecidableEq, Repr

/-- Outcome of a resolve operation: the returned value or thrown `ApiError`,
the resolver state after the call, and the trace of remote requests issued. -/
abbrev ResolveResult (α : Type) := Except ApiError α × ResolverState × List RemoteCall

/-! ## The six resolve operations -/

/-- `IdentifierResolver.resolveTeamId`. -/
def resolveTeamId (remote : Remote) (now : Nat) (s : ResolverState)
    (teamKeyOrId : String) : ResolveResult String :=
  if isUuidShaped teamKeyOrId then (.ok teamKeyOrId, s, [])
  else
    match (if shouldRefreshCache now s then none else mapGet s.cache.teams teamKeyOrId) with
    | some id => (.ok id, s, [])
    | none =>
      match remote.teamByKey teamKeyOrId with
      | none =>
        (.error ⟨404, "Team with key \"" ++ teamKeyOrId ++ "\" not found", INVALID_PARAMS, none⟩,
         s, [.teamByKey teamKeyOrId])
      | some teamId =>
        (.ok teamId,
         { s with cache := { s.cache with teams := mapSet s.cache.teams teamKeyOrId teamId } },
         [.teamByKey teamKeyOrId])

/-- JavaScript truthiness of the optional `teamId?: string` parameter
(`undefined` and the empty string are falsy). -/
def jsTruthy : Option String → Bool
  | none => false
  | some t => !(t == "")

/-- `IdentifierResolver.resolveProjectId`. -/
def resolveProjectId (remote : Remote) (now : Nat) (s : ResolverState)
    (projectNameOrId : String) (teamId : Option String) : ResolveResult String :=
  if isUuidShaped projectNameOrId then (.ok projectNameOrId, s, [])
  else
    let tOpt := if jsTruthy teamId then teamId else none
    let cacheKey :=
      match tOpt with
      | some t => t ++ ":" ++ projectNameOrId
      | none => projectNameOrId
    match (if shouldRefreshCache now s then none else mapGet s.cache.projects cacheKey) with
    | some id => (.ok id, s, [])
    | none =>
      match remote.projectsByName projectNameOrId tOpt with
      | [] =>
        let context := match tOpt with | some t => " in team " ++ t | none => ""
        (.error ⟨404, "Project \"" ++ projectNameOrId ++ "\"" ++ context ++ " not found",
                 INVALID_PARAMS, none⟩,
         s, [.projectsByName projectNameOrId tOpt])
      | projectId :: _ =>
        (.ok projectId,
         { s with cache := { s.cache with projects := mapSet s.cache.projects cacheKey projectId } },
         [.projectsByName projectNameOrId tOpt])

/-- `IdentifierResolver.resolveUserId`. -/
def resolveUserId (remote : Remote) (now : Nat) (s : ResolverState)
    (userEmailOrId : String) : ResolveResult String :=
  if isUuidShaped userEmailOrId then (.ok userEmailOrId, s, [])
  else
    match (if shouldRefreshCache now s then none else mapGet s.cache.users userEmailOrId) with
    | some id => (.ok id, s, [])
    | none =>
      match remote.userByEmail userEmailOrId with
      | none =>
        (.error ⟨404, "User with email \"" ++ userEmailOrId ++ "\" not found", INVALID_PARAMS, none⟩,
         s, [.userByEmail userEmailOrId])
      | some userId =>
        (.ok userId,
         { s with cache := { s.cache with users := mapSet s.cache.users userEmailOrId userId } },
         [.userByEmail userEmailOrId])

/-- `IdentifierResolver.resolveStateId`. -/
def resolveStateId (remote : Remote) (now : Nat) (s : ResolverState)
    (stateNameOrId : String) (teamId : String) : ResolveResult String :=
  if isUuidShaped stateNameOrId then (.ok stateNameOrId, s, [])
  else if teamId = "" then
    (.error ⟨400, "Team ID is required to resolve state names", INVALID_PARAMS, none⟩, s, [])
  else
    let teamStates := mapGet s.cache.states teamId
    match (if shouldRefreshCache now s then none
           else teamStates.bind fun m => mapGet m stateNameOrId) with
    | some id => (.ok id, s, [])
    | none =>
      let states := (remote.teamStates teamId).getD []
      match states.find? (fun st => jsToLower st.name == jsToLower stateNameOrId) with
      | none =>
        (.error ⟨404, "State \"" ++ stateNameOrId ++ "\" not found in team", INVALID_PARAMS, none⟩,
         s, [.teamStates teamId])
      | some st =>
        let inner := (mapGet s.cache.states teamId).getD []
        (.ok st.id,
         { s with cache :=
            { s.cache with states := mapSet s.cache.states teamId (mapSet inner stateNameOrId st.id) } },
         [.teamStates teamId])

/-- The cache-checking loop of `resolveLabelIds`: each name is a hit
(its cached id is collected, in input order) when the team-scoped map holds a
truthy id for it, and a miss otherwise. -/
def cachePartition (teamLabels : List (String × String)) :
    List String → List String × List String
  | [] => ([], [])
  | name :: rest =>
    let r := cachePartition teamLabels rest
    match mapGet teamLabels name with
    | some id => if id = "" then (r.1, name :: r.2) else (id :: r.1, r.2)
    | none => (r.1, name :: r.2)

/-- The cache-populating loop at the end of `resolveLabelIds`: each uncached
name is matched case-insensitively against the fetched label list; the first
name with no match throws NotFound, leaving the cache insertions made so far
in place; a match is written to the team label cache and its id appended. -/
def labelLoop (labels : List NamedNode) :
    List String → List (String × String) → List String →
      Except ApiError (List String) × List (String × String)
  | [], labelCache, acc => (.ok acc, labelCache)
  | name :: rest, labelCache, acc =>
    match labels.find? (fun l => jsToLower l.name == jsToLower name) with
    | none =>
      (.error ⟨404, "Label \"" ++ name ++ "\" not found in team", INVALID_PARAMS, none⟩, labelCache)
    | some l => labelLoop labels rest (mapSet labelCache name l.id) (acc ++ [l.id])

/-- `IdentifierResolver.resolveLabelIds`. -/
def resolveLabelIds (remote : Remote) (now : Nat) (s : ResolverState)
    (labelNamesOrIds : List String) (teamId : String) :
    Except ApiError (List String) × ResolverState × List RemoteCall :=
  if teamId = "" then
    (.error ⟨400, "Team ID is required to resolve label names", INVALID_PARAMS, none⟩, s, [])
  else
    let resolvedIds := labelNamesOrIds.filter isUuidShaped
    let namesToResolve := labelNamesOrIds.filter fun x => !(isUuidShaped x)
    if namesToResolve.isEmpty then (.ok resolvedIds, s, [])
    else
      let teamLabels := mapGet s.cache.labels teamId
      let part :=
        match (if shouldRefreshCache now s then none else teamLabels) with
        | some m => cachePartition m namesToResolve
        | none => ([], namesToResolve)
      let resolved2 := resolvedIds ++ part.1
      if part.2.isEmpty then (.ok resolved2, s, [])
      else
        let labels := (remote.teamLabels teamId).getD []
        let labelCache := (mapGet s.cache.labels teamId).getD []
        let lr := labelLoop labels part.2 labelCache resolved2
        (lr.1,
         { s with cache := { s.cache with labels := mapSet s.cache.labels teamId lr.2 } },
         [.teamLabels teamId])

/-- `IdentifierResolver.resolveIssueId`; it never reads or writes the cache,
so the state is returned unchanged. -/
def resolveIssueId (remote : Remote) (s : ResolverState)
    (issueIdentifierOrId : String) : ResolveResult String :=
  if isUuidShaped issueIdentifierOrId then (.ok issueIdentifierOrId, s, [])
  else if jsIncludes issueIdentifierOrId '-' then
    let parts := jsSplit '-' issueIdentifierOrId
    let teamKey := parts.getD 0 ""
    let numberStr := parts.getD 1 ""
    match jsParseInt numberStr with
    | none =>
      (.error ⟨400, "Invalid issue identifier format: " ++ issueIdentifierOrId,
               INVALID_PARAMS, none⟩, s, [])
    | some number =>
      match remote.issueByIdentifier teamKey number with
      | none =>
        (.error ⟨404, "Issue " ++ issueIdentifierOrId ++ " not found", INVALID_PARAMS, none⟩,
         s, [.issueByIdentifier teamKey number])
      | some [] =>
        (.error ⟨404, "Issue " ++ issueIdentifierOrId ++ " not found", INVALID_PARAMS, none⟩,
         s, [.issueByIdentifier teamKey number])
      | some (issueId :: _) =>
        (.ok issueId, s, [.issueByIdentifier teamKey number])
  else
    (.error ⟨400, "Invalid issue identifier format: " ++ issueIdentifierOrId,
             INVALID_PARAMS, none⟩, s, [])

/-! ## The resilient execution wrapper (`LinearService.executeWithRetry`) -/

/-- Decidable equality for `Except`, needed to evaluate concrete resolver and
retry outcomes. -/
instance [DecidableEq ε] [DecidableEq α] : DecidableEq (Except ε α) := fun x y =>
  match x, y with
  | .ok a, .ok b =>
    if h : a = b then .isTrue (congrArg Except.ok h)
    else .isFalse fun hh => h (Except.ok.inj hh)
  | .error a, .error b =>
    if h : a = b then .isTrue (congrArg Except.error h)
    else .isFalse fun hh => h (Except.error.inj hh)
  | .ok _, .error _ => .isFalse fun hh => Except.noConfusion hh
  | .error _, .ok _ => .isFalse fun hh => Except.noConfusion hh

/-- A thrown JavaScript error as observed by `executeWithRetry`: its
`message`, the optional `error.response.status` and `retry-after` header used
by the 429 branch, and — when the operation threw an `ApiError` (for example a
resolver NotFound/InvalidParams) — that error's own status code and JSON-RPC
code, which the wrapper never inspects. -/
structure JsError where
  message : String
  responseStatus : Option Nat
  retryAfter : Option String
  apiStatusCode : Option Nat
  apiJsonRpcCode : Option Int
deriving DecidableEq, Repr

/-- Milliseconds slept by the rate-limit branch of the attempt wrapper: on a
429 with a truthy `retry-after` header the source sleeps
`parseInt(retryAfter) * 1000` ms (`setTimeout` treats `NaN` and negative
delays as zero); otherwise nothing. -/
def rlWaitMs (e : JsError) : Nat :=
  if e.responseStatus = some 429 then
    match e.retryAfter with
    | some h =>
      if h = "" then 0
      else
        match jsParseInt h with
        | some n => (n * 1000).toNat
        | none => 0
    | none => 0
  else 0

/-- Backoff delay p-retry inserts after the `attempt`-th failed attempt:
exponential with factor 2, floor `minTimeout = 1000` ms and ceiling
`maxTimeout = 10000` ms (`randomize` defaults to off). -/
def backoffMs (attempt : Nat) : Nat :=
  min (1000 * 2 ^ (attempt - 1)) 10000

/-- Trace of one `pRetry` run: final operation-level result, number of the
last attempt made, the `(rate-limit wait, backoff wait)` pair slept between
each failed attempt and its successor, and the rate-limit wait performed
inside the final attempt when it failed (no retry follows it). -/
structure RetryTrace (α : Type) where
  result : Except JsError α
  attempts : Nat
  interWaits : List (Nat × Nat)
  finalRlWait : Nat
deriving DecidableEq, Repr

/-- The `pRetry(fn, { retries, minTimeout: 1000, maxTimeout: 10000 })` loop
around the inner attempt wrapper: the operation is modelled as a function from
the 1-based attempt number to that attempt's outcome; every failure is retried
while retries remain (`p-retry` only stops early on `AbortError`/`TypeError`,
which nothing in this code throws), and exhaustion rethrows the last error. -/
def pRetryGo (op : Nat → Except JsError α) : Nat → Nat → RetryTrace α
  | attempt, 0 =>
    match op attempt with
    | .ok v => ⟨.ok v, attempt, [], 0⟩
    | .error e => ⟨.error e, attempt, [], rlWaitMs e⟩
  | attempt, r + 1 =>
    match op attempt with
    | .ok v => ⟨.ok v, attempt, [], 0⟩
    | .error e =>
      let rest := pRetryGo op (attempt + 1) r
      ⟨rest.result, rest.attempts, (rlWaitMs e, backoffMs attempt) :: rest.interWaits,
       rest.finalRlWait⟩

/-- Outcome of `executeWithRetry`: the returned value or the thrown
`ApiError`, plus the observable attempt/wait trace. -/
structure RetryOutcome (α : Type) where
  result : Except ApiError α
  attempts : Nat
  interWaits : List (Nat × Nat)
  finalRlWait : Nat
deriving DecidableEq, Repr

/-- `LinearService.executeWithRetry`: run the operation under `pRetry` with
`retries: 3`; on terminal failure throw
`ApiError(500, 'Linear API error: ' + error.message, SERVER_ERROR, { originalError: error.message })`.
The `operationName` argument is used only for logging and metrics in the
source, so it does not influence the outcome. -/
def executeWithRetry (op : Nat → Except JsError α) (_operationName : String) :
    RetryOutcome α :=
  let t := pRetryGo op 1 3
  match t.result with
  | .ok v => ⟨.ok v, t.attempts, t.interWaits, t.finalRlWait⟩
  | .error e =>
    ⟨.error ⟨500, "Linear API error: " ++ e.message, SERVER_ERROR, some e.message⟩,
     t.attempts, t.interWaits, t.finalRlWait⟩

/-! ## Example environments used in concrete evaluations -/

/-- A remote backend with no data at all. -/
def noRemote : Remote :=
  ⟨fun _ => none, fun _ _ => [], fun _ => none, fun _ => none, fun _ => none, fun _ _ => none⟩

/-- A remote backend knowing one team, `OPS ↦ team-uuid-1`. -/
def remoteOps : Remote :=
  { noRemote with teamByKey := fun k => if k = "OPS" then some "team-uuid-1" else none }

/-- A remote backend where team key `OPS` has issues number 12 and 42. -/
def remoteIssue : Remote :=
  { noRemote with
    issueByIdentifier := fun k n =>
      if k = "OPS" ∧ (n = 12 ∨ n = 42) then some ["issue-uuid-" ++ toString n] else none }

/-- A remote backend where team `T1` has labels `Bug ↦ lbl-1`, `Feature ↦ lbl-2`. -/
def remoteLbl : Remote :=
  { noRemote with
    teamLabels := fun t => if t = "T1" then some [⟨"lbl-1", "Bug"⟩, ⟨"lbl-2", "Feature"⟩] else none }

/-! ## Helper lemmas about the map and string primitives -/

theorem toList_mk (l : List Char) : (String.mk l).toList = l := rfl

theorem mk_toList (s : String) : String.mk s.toList = s := rfl

theorem toList_append (s t : String) : (s ++ t).toList = s.toList ++ t.toList := rfl

theorem mapSet_key_pred (k k' : String) (v : α) :
    ((fun p : String × α => p.1 == k') ∘ fun p => if p.1 == k then (k, v) else p)
      = fun p : String × α => p.1 == k' := by
  funext p
  by_cases hp : p.1 = k
  · simp [Function.comp, hp]
  · simp [Function.comp, hp]

theorem find?_append_eq (p : α → Bool) :
    ∀ l₁ l₂ : List α, (l₁ ++ l₂).find? p =
      match l₁.find? p with
      | some a => some a
      | none => l₂.find? p
  | [], _ => by simp
  | a :: rest, l₂ => by
      by_cases ha : p a
      · simp [List.find?_cons, ha]
      · simp only [List.cons_append, List.find?_cons, show p a = false by simpa using ha]
        exact find?_append_eq p rest l₂

theorem mapGet_mapSet_self (m : List (String × α)) (k : String) (v : α) :
    mapGet (mapSet m k v) k = some v := by
  unfold mapSet
  split
  case isTrue h =>
    obtain ⟨p, hp⟩ := Option.isSome_iff_exists.mp h
    have hpk : p.1 = k := by simpa using List.find?_some hp
    rw [mapGet, List.find?_map, mapSet_key_pred, hp]
    simp [hpk]
  case isFalse h =>
    have hn : (m.find? fun p => p.1 == k) = none := Option.not_isSome_iff_eq_none.mp h
    rw [mapGet, find?_append_eq, hn]
    simp [List.find?_cons]

theorem mapGet_mapSet_ne (m : List (String × α)) (k k' : String) (v : α)
    (h : k' ≠ k) : mapGet (mapSet m k v) k' = mapGet m k' := by
  unfold mapSet
  split
  · rw [mapGet, List.find?_map, mapSet_key_pred, mapGet]
    cases hf : m.find? fun p => p.1 == k' with
    | none => simp
    | some p =>
      have hpk : p.1 = k' := by simpa using List.find?_some hf
      simp [hpk, h]
  · rw [mapGet, find?_append_eq, mapGet]
    cases hf : m.find? fun p => p.1 == k' with
    | none => simp [List.find?_cons, show (k == k') = false by simp [Ne.symm h]]
    | some p => simp

theorem mapGet_foldl_mapSet (f : String → String) :
    ∀ (pre : List String) (m : List (String × String)) (x : String),
      mapGet (pre.foldl (fun mm y => mapSet mm y (f y)) m) x =
        if x ∈ pre then some (f x) else mapGet m x
  | [], m, x => by simp
  | p :: rest, m, x => by
      rw [List.foldl_cons, mapGet_foldl_mapSet f rest (mapSet m p (f p)) x]
      by_cases hr : x ∈ rest
      · simp [hr, List.mem_cons]
      · by_cases hp : x = p
        · subst hp
          simp [hr, mapGet_mapSet_self]
        · simp [hr, hp, List.mem_cons, mapGet_mapSet_ne m p x (f p) hp]

theorem splitChar_head_no_sep (sep : Char) :
    ∀ l : List Char, sep ∉ (splitChar sep l).headD []
  | [] => by simp [splitChar]
  | c :: cs => by
      by_cases hc : c = sep
      · simp [splitChar, hc]
      · have ih := splitChar_head_no_sep sep cs
        rw [splitChar, if_neg hc]
        cases hs : splitChar sep cs with
        | nil => simp [Ne.symm hc]
        | cons h t =>
          rw [hs] at ih
          simpa [List.headD, Ne.symm hc] using fun hmem => absurd hmem (by simpa using ih)

theorem splitChar_no_sep (sep : Char) :
    ∀ l : List Char, sep ∉ l → splitChar sep l = [l]
  | [], _ => rfl
  | c :: cs, h => by
      have hc : ¬c = sep := fun hh => h (by simp [hh])
      have hcs : sep ∉ cs := fun hh => h (by simp [hh])
      rw [splitChar, if_neg hc, splitChar_no_sep sep cs hcs]

theorem splitChar_append_sep (sep : Char) :
    ∀ a rest : List Char, sep ∉ a →
      splitChar sep (a ++ sep :: rest) = a :: splitChar sep rest
  | [], rest, _ => by simp [splitChar]
  | c :: a, rest, h => by
      have hc : ¬c = sep := fun hh => h (by simp [hh])
      have ha : sep ∉ a := fun hh => h (by simp [hh])
      rw [List.cons_append, splitChar, if_neg hc, splitChar_append_sep sep a rest ha]

/-! ## Helper lemmas about the label-resolution loops -/

/-- Specification-level form of the cache-populating loop: resolve each name
against the one fetched label list, returning the matched ids in order, or the
first name with no case-insensitive match. -/
def matchNames (labels : List NamedNode) : List String → Except String (List String)
  | [] => .ok []
  | name :: rest =>
    match labels.find? (fun l => jsToLower l.name == jsToLower name) with
    | none => .error name
    | some l => (matchNames labels rest).map fun ids => l.id :: ids

/-- The id the fetched label list assigns to a name (meaningful when the
case-insensitive search succeeds). -/
def foundId (labels : List NamedNode) (x : String) : String :=
  match labels.find? (fun l => jsToLower l.name == jsToLower x) with
  | some l => l.id
  | none => ""

theorem labelLoop_result (labels : List NamedNode) :
    ∀ (names : List String) (m : List (String × String)) (acc : List String),
      (labelLoop labels names m acc).1 =
        match matchNames labels names with
        | .ok ids => .ok (acc ++ ids)
        | .error mm =>
          .error ⟨404, "Label \"" ++ mm ++ "\" not found in team", INVALID_PARAMS, none⟩
  | [], m, acc => by simp [labelLoop, matchNames]
  | name :: rest, m, acc => by
      rw [labelLoop, matchNames]
      cases hf : labels.find? (fun l => jsToLower l.name == jsToLower name) with
      | none => rfl
      | some l =>
        rw [labelLoop_result labels rest (mapSet m name l.id) (acc ++ [l.id])]
        cases matchNames labels rest with
        | ok ids => simp [Except.map]
        | error mm => simp [Except.map]

theorem labelLoop_found_front (labels : List NamedNode) :
    ∀ (pre rest : List String) (m : List (String × String)) (acc : List String),
      (∀ x ∈ pre, (labels.find? fun l => jsToLower l.name == jsToLower x).isSome) →
      labelLoop labels (pre ++ rest) m acc =
        labelLoop labels rest
          (pre.foldl (fun mm x => mapSet mm x (foundId labels x)) m)
          (acc ++ pre.map (foundId labels))
  | [], rest, m, acc, _ => by simp
  | p :: pre, rest, m, acc, h => by
      obtain ⟨l, hl⟩ := Option.isSome_iff_exists.mp (h p (by simp))
      rw [List.cons_append, labelLoop, hl]
      have hid : foundId labels p = l.id := by rw [foundId, hl]
      show labelLoop labels (pre ++ rest) (mapSet m p l.id) (acc ++ [l.id]) = _
      rw [labelLoop_found_front labels pre rest (mapSet m p l.id) (acc ++ [l.id])
        (fun x hx => h x (by simp [hx]))]
      simp [hid]

/-! ## Helper lemmas about the retry wrapper -/

theorem pRetryGo_ok (op : Nat → Except JsError α) (attempt r : Nat) (v : α)
    (h : op attempt = .ok v) : pRetryGo op attempt r = ⟨.ok v, attempt, [], 0⟩ := by
  cases r <;> simp [pRetryGo, h]

theorem pRetryGo_zero_error (op : Nat → Except JsError α) (attempt : Nat) (e : JsError)
    (h : op attempt = .error e) :
    pRetryGo op attempt 0 = ⟨.error e, attempt, [], rlWaitMs e⟩ := by
  simp [pRetryGo, h]

theorem pRetryGo_succ_error (op : Nat → Except JsError α) (attempt r : Nat) (e : JsError)
    (h : op attempt = .error e) :
    pRetryGo op attempt (r + 1) =
      ⟨(pRetryGo op (attempt + 1) r).result, (pRetryGo op (attempt + 1) r).attempts,
       (rlWaitMs e, backoffMs attempt) :: (pRetryGo op (attempt + 1) r).interWaits,
       (pRetryGo op (attempt + 1) r).finalRlWait⟩ := by
  simp [pRetryGo, h]

/-- Waits inserted between consecutive attempts of an always-failing run. -/
def failWaits (e : Nat → JsError) : Nat → Nat → List (Nat × Nat)
  | _, 0 => []
  | attempt, r + 1 => (rlWaitMs (e attempt), backoffMs attempt) :: failWaits e (attempt + 1) r

theorem pRetryGo_alwaysFail (op : Nat → Except JsError α) (e : Nat → JsError)
    (hop : ∀ k, op k = .error (e k)) :
    ∀ (r attempt : Nat), pRetryGo op attempt r =
      ⟨.error (e (attempt + r)), attempt + r, failWaits e attempt r,
       rlWaitMs (e (attempt + r))⟩
  | 0, attempt => by rw [pRetryGo_zero_error op attempt (e attempt) (hop attempt)]; rfl
  | r + 1, attempt => by
      rw [pRetryGo_succ_error op attempt r (e attempt) (hop attempt),
        pRetryGo_alwaysFail op e hop r (attempt + 1)]
      have hr : attempt + 1 + r = attempt + (r + 1) := by omega
      rw [hr]
      rfl

theorem executeWithRetry_alwaysFail (op : Nat → Except JsError α) (e : Nat → JsError)
    (hop : ∀ k, op k = .error (e k)) (name : String) :
    executeWithRetry op name =
      ⟨.error ⟨500, "Linear API error: " ++ (e 4).message, SERVER_ERROR, some (e 4).message⟩,
       4,
       [(rlWaitMs (e 1), backoffMs 1), (rlWaitMs (e 2), backoffMs 2),
        (rlWaitMs (e 3), backoffMs 3)],
       rlWaitMs (e 4)⟩ := by
  unfold executeWithRetry
  rw [pRetryGo_alwaysFail op e hop 3 1]
  rfl

theorem executeWithRetry_interWaits (op : Nat → Except JsError α) (name : String) :
    (executeWithRetry op name).interWaits = (pRetryGo op 1 3).interWaits := by
  unfold executeWithRetry
  cases h : (pRetryGo op 1 3).result <;> simp [h]

/-! ## C1 — cache hit avoids remote call -/

/-- C1: the claim fails on the code. `resolveTeamId` never updates
`lastCacheRefresh` after a fresh lookup, so once `now` is past the five-minute
mark relative to the initial timestamp `0`, `shouldRefreshCache` stays true
forever and the cached entry is never trusted: a first successful resolution
of key `OPS` issues one remote lookup, leaves `lastCacheRefresh` at `0` while
writing `OPS` into the team cache, and a second resolution one second later
issues a second remote lookup instead of serving the cached id. -/
theorem resolveTeamId_second_call_repeats_remote_lookup :
    (resolveTeamId remoteOps 1000000 freshState "OPS").2.2 = [RemoteCall.teamByKey "OPS"] ∧
    (resolveTeamId remoteOps 1000000 freshState "OPS").2.1.lastCacheRefresh = 0 ∧
    mapGet (resolveTeamId remoteOps 1000000 freshState "OPS").2.1.cache.teams "OPS"
      = some "team-uuid-1" ∧
    (resolveTeamId remoteOps 1001000
        (resolveTeamId remoteOps 1000000 freshState "OPS").2.1 "OPS").2.2
      = [RemoteCall.teamByKey "OPS"] := by
  decide

/-! ## C2 — resolver-level errors and the retry budget -/

/-- A resolver-level NotFound `ApiError` as a thrown JS error: no
`response.status`, but its own 404 status and InvalidParams JSON-RPC code. -/
def resolverNotFoundErr : JsError :=
  ⟨"Team with key \"OPS\" not found", none, none, some 404, some INVALID_PARAMS⟩

/-- C2 counterexample: an operation closure that deterministically throws a
resolver-level NotFound is NOT propagated unchanged after one attempt;
`executeWithRetry` makes all 4 attempts and converts the error into the
uniform 500 / server-error wrapper. -/
theorem executeWithRetry_retries_resolver_error :
    (executeWithRetry
        (fun _ => (Except.error resolverNotFoundErr : Except JsError String))
        "listIssues").attempts = 4 ∧
    (executeWithRetry
        (fun _ => (Except.error resolverNotFoundErr : Except JsError String))
        "listIssues").result
      = .error ⟨500, "Linear API error: Team with key \"OPS\" not found", SERVER_ERROR,
                some "Team with key \"OPS\" not found"⟩ := by
  decide

/-- C2 amended: an operation closure that deterministically throws a
resolver-level error (its own status 400 or 404) is retried like any other
failure — `executeWithRetry` makes exactly 4 attempts, consuming the whole
retry budget, and then raises the uniform upstream-failure `ApiError`
(status 500, server-error code, wrapped message) instead of re-raising the
resolver error unchanged. -/
theorem executeWithRetry_resolver_error_exhausts_budget (e : JsError)
    (op : Nat → Except JsError String) (name : String)
    (_hres : e.apiStatusCode = some 400 ∨ e.apiStatusCode = some 404)
    (hop : ∀ k, op k = .error e) :
    (executeWithRetry op name).attempts = 4 ∧
    (executeWithRetry op name).result
      = .error ⟨500, "Linear API error: " ++ e.message, SERVER_ERROR, some e.message⟩ := by
  rw [executeWithRetry_alwaysFail op (fun _ => e) hop name]
  exact ⟨rfl, rfl⟩

/-- C2 amended, witness at a concrete resolver error and operation. -/
theorem executeWithRetry_resolver_error_exhausts_budget_witness :
    (resolverNotFoundErr.apiStatusCode = some 400 ∨
      resolverNotFoundErr.apiStatusCode = some 404) ∧
    (executeWithRetry
        (fun _ => (Except.error resolverNotFoundErr : Except JsError String))
        "getTeam").attempts = 4 ∧
    (executeWithRetry
        (fun _ => (Except.error resolverNotFoundErr : Except JsError String))
        "getTeam").result
      = .error ⟨500, "Linear API error: " ++ resolverNotFoundErr.message, SERVER_ERROR,
                some resolverNotFoundErr.message⟩ :=
  ⟨by decide,
   executeWithRetry_resolver_error_exhausts_budget resolverNotFoundErr
     (fun _ => .error resolverNotFoundErr) "getTeam" (by decide) (fun _ => rfl)⟩

/-! ## C3 — retry budget exhaustion and the uniform terminal error -/

/-- A plain transport failure with no rate-limit signal. -/
def transportErr : JsError := ⟨"network socket hangup", none, none, none, none⟩

/-- C3 counterexample: the terminal error does not carry the operation name.
The whole outcome of `executeWithRetry` on an always-failing operation is
identical under two different operation names, and the raised error is exactly
the wrapper of the underlying message — so no field of it can contain the
operation name. -/
theorem executeWithRetry_error_is_name_independent :
    executeWithRetry
        (fun _ => (Except.error transportErr : Except JsError String)) "listIssues"
      = executeWithRetry
          (fun _ => (Except.error transportErr : Except JsError String)) "someOtherOp" ∧
    (executeWithRetry
        (fun _ => (Except.error transportErr : Except JsError String)) "listIssues").result
      = .error ⟨500, "Linear API error: network socket hangup", SERVER_ERROR,
                some "network socket hangup"⟩ := by
  decide

/-- C3 amended: an always-failing operation is attempted exactly 4 times
(1 initial + 3 retries) and then one uniform `ApiError` is raised carrying
HTTP status 500, the server-error classification code, the message
`Linear API error: <last underlying message>` and the last underlying message
as structured context (`originalError`) — never the original error value; the
operation name appears only in logs and metrics, so the outcome is
independent of it. -/
theorem executeWithRetry_exhaustion_uniform_error (e : Nat → JsError)
    (op : Nat → Except JsError String)
    (hop : ∀ k, op k = .error (e k)) (name otherName : String) :
    (executeWithRetry op name).attempts = 4 ∧
    (executeWithRetry op name).result
      = .error ⟨500, "Linear API error: " ++ (e 4).message, SERVER_ERROR,
                some (e 4).message⟩ ∧
    executeWithRetry op name = executeWithRetry op otherName := by
  rw [executeWithRetry_alwaysFail op e hop name, executeWithRetry_alwaysFail op e hop otherName]
  exact ⟨rfl, rfl, rfl⟩

/-- The always-failing operation used as a concrete retry witness. -/
def failOpEx : Nat → Except JsError String := fun _ => .error transportErr

/-- C3 amended, witness at a concrete transport failure. -/
theorem executeWithRetry_exhaustion_uniform_error_witness :
    (executeWithRetry failOpEx "listUsers").attempts = 4 ∧
    (executeWithRetry failOpEx "listUsers").result
      = .error ⟨500, "Linear API error: " ++ transportErr.message, SERVER_ERROR,
                some transportErr.message⟩ ∧
    executeWithRetry failOpEx "listUsers" = executeWithRetry failOpEx "listProjects" :=
  executeWithRetry_exhaustion_uniform_error (fun _ => transportErr) failOpEx
    (fun _ => rfl) "listUsers" "listProjects"

/-! ## C5 — rate-limit wait precedence -/

/-- C5: when the first attempt fails with a 429 carrying a parseable positive
`retry-after` hint of `n` seconds, the wait inserted before the second attempt
is the pair (rate-limit wait, exponential backoff): the rate-limit wait equals
`n * 1000` ms, so at least `n` seconds pass in addition to (not instead of)
the standard backoff; a failure that is not a 429 contributes no rate-limit
wait, leaving only the exponential backoff, which is always bounded between
1000 ms and 10000 ms. -/
theorem executeWithRetry_rate_limit_wait (op : Nat → Except JsError String)
    (name : String) (e₁ : JsError) (hop1 : op 1 = .error e₁) :
    (executeWithRetry op name).interWaits.head? = some (rlWaitMs e₁, backoffMs 1) ∧
    (∀ h n, e₁.responseStatus = some 429 → e₁.retryAfter = some h →
      jsParseInt h = some n → 0 < n →
      rlWaitMs e₁ = (n * 1000).toNat ∧
      (n * 1000).toNat ≤ rlWaitMs e₁ + backoffMs 1) ∧
    (e₁.responseStatus ≠ some 429 → rlWaitMs e₁ = 0) ∧
    (∀ k, 1 ≤ k → k ≤ 3 → 1000 ≤ backoffMs k ∧ backoffMs k ≤ 10000) := by
  refine ⟨?_, ?_, ?_, ?_⟩
  · rw [executeWithRetry_interWaits, show (3 : Nat) = 2 + 1 from rfl,
      pRetryGo_succ_error op 1 2 e₁ hop1]
    rfl
  · intro h n h429 hra hpn _
    have hne : ¬h = "" := by
      intro hE
      rw [hE] at hpn
      exact Option.noConfusion hpn
    have hval : rlWaitMs e₁ = (n * 1000).toNat := by
      rw [rlWaitMs, if_pos h429, hra]
      show (if h = "" then 0
            else match jsParseInt h with
                 | some n => (n * 1000).toNat
                 | none => 0) = _
      rw [if_neg hne, hpn]
    exact ⟨hval, by rw [hval]; exact Nat.le_add_right _ _⟩
  · intro hne
    rw [rlWaitMs, if_neg hne]
  · intro k hk1 hk3
    interval_cases k <;> exact ⟨by decide, by decide⟩

/-- A 429 failure with the spec's two-second `retry-after` hint. -/
def rateLimitedErr : JsError := ⟨"rate limited", some 429, some "2", none, none⟩

/-- An operation that is rate-limited on its first attempt and then succeeds. -/
def rlOpEx : Nat → Except JsError String :=
  fun k => if k = 1 then .error rateLimitedErr else .ok "v"

/-- C5 witness: the two-second hint yields a 2000 ms rate-limit wait on top of
the 1000 ms backoff before the second attempt. -/
theorem executeWithRetry_rate_limit_wait_witness :
    rlOpEx 1 = .error rateLimitedErr ∧
    (executeWithRetry rlOpEx "listIssues").interWaits.head?
      = some (rlWaitMs rateLimitedErr, backoffMs 1) ∧
    rlWaitMs rateLimitedErr = 2000 ∧ backoffMs 1 = 1000 :=
  ⟨by decide,
   (executeWithRetry_rate_limit_wait rlOpEx "listIssues" rateLimitedErr (by decide)).1,
   by decide, by decide⟩

/-! ## C4 — canonical-ID passthrough across the six operations -/

/-- C4 counterexample: in `resolveLabelIds` the required-teamId check is the
first branch, ahead of the canonical-shape partition: a list consisting of one
canonical-shaped id with an empty teamId throws InvalidParams instead of being
returned unchanged. -/
theorem resolveLabelIds_teamId_check_precedes_partition :
    resolveLabelIds noRemote 0 freshState ["aaaaaaaa-bbbb-cccc-dddd-eeeeeeeeeeee"] ""
      = (.error ⟨400, "Team ID is required to resolve label names", INVALID_PARAMS, none⟩,
         freshState, []) := by
  decide

/-- C4 amended: for the five single-identifier operations the canonical-shape
check is the first branch taken — a canonical-shaped input is returned
unchanged with zero remote calls and zero cache mutations, for any cache
state, any timestamp and any (even empty) team scope. In `resolveLabelIds`
the required-teamId validation precedes the partitioning step; given a
non-empty teamId, a list of canonical-shaped entries is returned unchanged
with zero remote calls and zero cache mutations. -/
theorem canonical_id_passthrough (remote : Remote) (now : Nat) (s : ResolverState)
    (x : String) (hu : isUuidShaped x = true) (tOpt : Option String) (tid : String)
    (inputs : List String) (tid2 : String) :
    resolveTeamId remote now s x = (.ok x, s, []) ∧
    resolveProjectId remote now s x tOpt = (.ok x, s, []) ∧
    resolveUserId remote now s x = (.ok x, s, []) ∧
    resolveStateId remote now s x tid = (.ok x, s, []) ∧
    resolveIssueId remote s x = (.ok x, s, []) ∧
    (tid2 ≠ "" → (∀ y ∈ inputs, isUuidShaped y = true) →
      resolveLabelIds remote now s inputs tid2 = (.ok inputs, s, [])) := by
  refine ⟨?_, ?_, ?_, ?_, ?_, ?_⟩
  · rw [resolveTeamId, if_pos hu]
  · rw [resolveProjectId, if_pos hu]
  · rw [resolveUserId, if_pos hu]
  · rw [resolveStateId, if_pos hu]
  · rw [resolveIssueId, if_pos hu]
  · intro hT hall
    have hnames : (inputs.filter fun y => !(isUuidShaped y)) = [] := by
      rw [List.filter_eq_nil_iff]
      intro y hy
      simp [hall y hy]
    have hcanon : inputs.filter isUuidShaped = inputs :=
      List.filter_eq_self.mpr hall
    rw [resolveLabelIds, if_neg hT]
    simp [hnames, hcanon]

/-- C4 amended, witness: a concrete canonical id passes through all six
operations, and a two-element canonical list passes through batch label
resolution under teamId `T1`. -/
theorem canonical_id_passthrough_witness :
    isUuidShaped "aaaaaaaa-bbbb-cccc-dddd-eeeeeeeeeeee" = true ∧
    resolveTeamId noRemote 0 freshState "aaaaaaaa-bbbb-cccc-dddd-eeeeeeeeeeee"
      = (.ok "aaaaaaaa-bbbb-cccc-dddd-eeeeeeeeeeee", freshState, []) ∧
    (resolveLabelIds noRemote 0 freshState
        ["aaaaaaaa-bbbb-cccc-dddd-eeeeeeeeeeee", "11111111-2222-3333-4444-555555555555"] "T1"
      = (.ok ["aaaaaaaa-bbbb-cccc-dddd-eeeeeeeeeeee", "11111111-2222-3333-4444-555555555555"],
         freshState, [])) :=
  ⟨by decide,
   (canonical_id_passthrough noRemote 0 freshState "aaaaaaaa-bbbb-cccc-dddd-eeeeeeeeeeee"
     (by decide) none "T1"
     ["aaaaaaaa-bbbb-cccc-dddd-eeeeeeeeeeee", "11111111-2222-3333-4444-555555555555"] "T1").1,
   (canonical_id_passthrough noRemote 0 freshState "aaaaaaaa-bbbb-cccc-dddd-eeeeeeeeeeee"
     (by decide) none "T1"
     ["aaaaaaaa-bbbb-cccc-dddd-eeeeeeeeeeee", "11111111-2222-3333-4444-555555555555"] "T1").2.2.2.2.2
     (by decide) (by decide)⟩

/-! ## C6 — missing required team scope in resolveStateId -/

/-- C6 counterexample: with an empty teamId, a canonical-shaped input does not
fail with InvalidParams — the UUID check fires first and the input is returned
unchanged, so the claim is false for UUID-shaped input strings. -/
theorem resolveStateId_uuid_ignores_missing_teamId :
    resolveStateId noRemote 0 freshState "aaaaaaaa-bbbb-cccc-dddd-eeeeeeeeeeee" ""
      = (.ok "aaaaaaaa-bbbb-cccc-dddd-eeeeeeeeeeee", freshState, []) := by
  decide

/-- C6 amended: for every input string that is not canonical-shaped, calling
`resolveStateId` with an empty teamId fails with InvalidParams (status 400,
not a 404 NotFound) before any cache access or remote call — the state is
unchanged and the remote trace is empty. -/
theorem resolveStateId_requires_teamId (remote : Remote) (now : Nat)
    (s : ResolverState) (x : String) (hx : isUuidShaped x = false) :
    resolveStateId remote now s x ""
      = (.error ⟨400, "Team ID is required to resolve state names", INVALID_PARAMS, none⟩,
         s, []) := by
  rw [resolveStateId, if_neg (by simp [hx]), if_pos rfl]

/-- C6 amended, witness at the state name `Todo`. -/
theorem resolveStateId_requires_teamId_witness :
    isUuidShaped "Todo" = false ∧
    resolveStateId noRemote 1000 freshState "Todo" ""
      = (.error ⟨400, "Team ID is required to resolve state names", INVALID_PARAMS, none⟩,
         freshState, []) :=
  ⟨by decide, resolveStateId_requires_teamId noRemote 1000 freshState "Todo" (by decide)⟩

/-! ## C8 — malformed numeric suffix in resolveIssueId -/

/-- C8 counterexample: `parseInt` accepts a digit prefix, so the malformed
suffix `12abc` in `OPS-12abc` is not rejected: the code issues a remote
lookup for team `OPS`, issue number 12, and resolves successfully — rather
than failing with InvalidParams and no remote call. -/
theorem resolveIssueId_malformed_suffix_can_resolve :
    resolveIssueId remoteIssue freshState "OPS-12abc"
      = (.ok "issue-uuid-12", freshState, [RemoteCall.issueByIdentifier "OPS" 12]) := by
  decide

/-- C8 amended: for a non-canonical-shaped input containing a hyphen,
`resolveIssueId` fails with InvalidParams and no remote call exactly when
JavaScript `parseInt` of the second hyphen-separated segment is `NaN` (no
leading digit); a suffix with a leading integer followed by junk is instead
treated as that integer and can resolve. -/
theorem resolveIssueId_rejects_unparsable_suffix (remote : Remote)
    (s : ResolverState) (x : String) (hu : isUuidShaped x = false)
    (hh : jsIncludes x '-' = true)
    (hp : jsParseInt ((jsSplit '-' x).getD 1 "") = none) :
    resolveIssueId remote s x
      = (.error ⟨400, "Invalid issue identifier format: " ++ x, INVALID_PARAMS, none⟩,
         s, []) := by
  rw [resolveIssueId, if_neg (by simp [hu]), if_pos hh]
  simp only [hp]

/-- C8 amended, witness at `OPS-abc`. -/
theorem resolveIssueId_rejects_unparsable_suffix_witness :
    (isUuidShaped "OPS-abc" = false ∧ jsIncludes "OPS-abc" '-' = true ∧
      jsParseInt ((jsSplit '-' "OPS-abc").getD 1 "") = none) ∧
    resolveIssueId remoteIssue freshState "OPS-abc"
      = (.error ⟨400, "Invalid issue identifier format: OPS-abc", INVALID_PARAMS, none⟩,
         freshState, []) :=
  ⟨⟨by decide, by decide, by decide⟩,
   resolveIssueId_rejects_unparsable_suffix remoteIssue freshState "OPS-abc"
     (by decide) (by decide) (by decide)⟩

/-! ## C7 — batch label resolution: one fetch, fail-fast, order -/

/-- The cache-check section of `resolveLabelIds` as a standalone function:
when the cache is fresh and holds an entry for the team, the name list is
partitioned into cache hits (their ids, in input order) and misses; otherwise
every name is a miss. -/
def labelPartition (now : Nat) (s : ResolverState) (teamId : String)
    (names : List String) : List String × List String :=
  match (if shouldRefreshCache now s then none else mapGet s.cache.labels teamId) with
  | some m => cachePartition m names
  | none => ([], names)

theorem labelPartition_nil (now : Nat) (s : ResolverState) (teamId : String) :
    labelPartition now s teamId [] = ([], []) := by
  rw [labelPartition]
  split
  · rfl
  · rfl

/-- The loop run performed by `resolveLabelIds` over the cache misses of an
arbitrary state, starting from the canonical ids and cache hits. -/
def labelLoopRun (remote : Remote) (now : Nat) (s : ResolverState)
    (inputs : List String) (teamId : String) :
    Except ApiError (List String) × List (String × String) :=
  labelLoop ((remote.teamLabels teamId).getD [])
    (labelPartition now s teamId (inputs.filter fun x => !(isUuidShaped x))).2
    ((mapGet s.cache.labels teamId).getD [])
    (inputs.filter isUuidShaped
      ++ (labelPartition now s teamId (inputs.filter fun x => !(isUuidShaped x))).1)

/-- `resolveLabelIds` on any state whose cache check leaves no miss: no
remote call, no state change, canonical ids then cache hits. -/
theorem resolveLabelIds_no_fetch_eq (remote : Remote) (now : Nat) (s : ResolverState)
    (inputs : List String) (teamId : String) (hT : teamId ≠ "")
    (hm : (labelPartition now s teamId (inputs.filter fun x => !(isUuidShaped x))).2 = []) :
    resolveLabelIds remote now s inputs teamId
      = (.ok (inputs.filter isUuidShaped
          ++ (labelPartition now s teamId (inputs.filter fun x => !(isUuidShaped x))).1),
         s, []) := by
  rw [resolveLabelIds, if_neg hT]
  by_cases h0 : (inputs.filter fun x => !(isUuidShaped x)) = []
  · simp [h0, labelPartition_nil]
  · have hne : (inputs.filter fun x => !(isUuidShaped x)).isEmpty = false := by
      simp [h0]
    have hm2 : (labelPartition now s teamId
        (inputs.filter fun x => !(isUuidShaped x))).2.isEmpty = true := by
      simp [hm]
    rw [labelPartition] at hm2
    simp [hne, hm2, labelPartition]

/-- `resolveLabelIds` on any state whose cache check leaves at least one miss:
one remote fetch, and the loop over exactly the misses. -/
theorem resolveLabelIds_fetch_eq (remote : Remote) (now : Nat) (s : ResolverState)
    (inputs : List String) (teamId : String) (hT : teamId ≠ "")
    (hm : (labelPartition now s teamId (inputs.filter fun x => !(isUuidShaped x))).2 ≠ []) :
    resolveLabelIds remote now s inputs teamId
      = ((labelLoopRun remote now s inputs teamId).1,
         { s with cache := { s.cache with
            labels := mapSet s.cache.labels teamId (labelLoopRun remote now s inputs teamId).2 } },
         [RemoteCall.teamLabels teamId]) := by
  have hn : (inputs.filter fun x => !(isUuidShaped x)) ≠ [] := by
    intro h0
    exact hm (by rw [h0, labelPartition_nil])
  rw [resolveLabelIds, if_neg hT]
  have hne : (inputs.filter fun x => !(isUuidShaped x)).isEmpty = false := by
    simp [hn]
  have hm2 : (labelPartition now s teamId
      (inputs.filter fun x => !(isUuidShaped x))).2.isEmpty = false := by
    simp [hm]
  rw [labelPartition] at hm2
  simp [hne, hm2, labelLoopRun, labelPartition]

/-- C7: for every input list and non-empty teamId, over an arbitrary cache
state: `resolveLabelIds` issues at most one remote fetch however many names
are uncached; when the cache check leaves no uncached name it returns, with
zero remote calls and no state change, the canonical-shaped inputs followed by
the cache-resolved ids; and when at least one name is uncached it issues
exactly one fetch of the team's label list and resolves each uncached name
case-insensitively against that single fetched list (`matchNames`), the first
unmatched name aborting the whole batch with the 404 NotFound error, the
successful result being the canonical-shaped inputs first, then the
cache-resolved ids, then the fetched ids, in resolution order. -/
theorem resolveLabelIds_single_fetch_and_order (remote : Remote) (now : Nat)
    (inputs : List String) (teamId : String) (hT : teamId ≠ "") :
    (∀ s : ResolverState,
      (resolveLabelIds remote now s inputs teamId).2.2.length ≤ 1) ∧
    (∀ s : ResolverState,
      (labelPartition now s teamId (inputs.filter fun x => !(isUuidShaped x))).2 = [] →
      resolveLabelIds remote now s inputs teamId
        = (.ok (inputs.filter isUuidShaped
            ++ (labelPartition now s teamId (inputs.filter fun x => !(isUuidShaped x))).1),
           s, [])) ∧
    (∀ s : ResolverState,
      (labelPartition now s teamId (inputs.filter fun x => !(isUuidShaped x))).2 ≠ [] →
      (resolveLabelIds remote now s inputs teamId).2.2 = [RemoteCall.teamLabels teamId] ∧
      (resolveLabelIds remote now s inputs teamId).1
        = match matchNames ((remote.teamLabels teamId).getD [])
              (labelPartition now s teamId (inputs.filter fun x => !(isUuidShaped x))).2 with
          | .ok ids =>
            .ok (inputs.filter isUuidShaped
              ++ (labelPartition now s teamId (inputs.filter fun x => !(isUuidShaped x))).1
              ++ ids)
          | .error m =>
            .error ⟨404, "Label \"" ++ m ++ "\" not found in team", INVALID_PARAMS, none⟩) := by
  refine ⟨?_, ?_, ?_⟩
  · intro s
    rw [resolveLabelIds, if_neg hT]
    by_cases hst : shouldRefreshCache now s
    all_goals by_cases hn : (inputs.filter fun x => !(isUuidShaped x)).isEmpty
    all_goals cases hm : mapGet s.cache.labels teamId
    all_goals simp [hst, hn, hm]
    all_goals try (split_ifs <;> simp)
  · intro s hm
    exact resolveLabelIds_no_fetch_eq remote now s inputs teamId hT hm
  · intro s hm
    rw [resolveLabelIds_fetch_eq remote now s inputs teamId hT hm]
    refine ⟨rfl, ?_⟩
    rw [labelLoopRun, labelLoop_result]

/-- The spec's partially-cached scenario: team `T1` already has `Bug ↦ lbl-1`
cached and `lastCacheRefresh = 0`, so at `now = 1000` the entry is trusted. -/
def cachedStateT1 : ResolverState :=
  ⟨{ emptyCache with labels := [("T1", [("Bug", "lbl-1")])] }, 0⟩

/-- The spec's mixed input list: a cached name, a canonical id, an uncached
name. -/
def mixedLabelInputs : List String :=
  ["Bug", "aaaaaaaa-bbbb-cccc-dddd-eeeeeeeeeeee", "Feature"]

/-- C7 witness at the spec's partially-cached scenario: `Bug` is served from
the cache, the single fetch resolves `Feature`, and the result is the
canonical id first, then the cached id, then the fetched id. -/
theorem resolveLabelIds_single_fetch_and_order_witness :
    ("T1" : String) ≠ "" ∧
    (labelPartition 1000 cachedStateT1 "T1"
        (mixedLabelInputs.filter fun x => !(isUuidShaped x))).2 ≠ [] ∧
    (resolveLabelIds remoteLbl 1000 cachedStateT1 mixedLabelInputs "T1").2.2.length ≤ 1 ∧
    (resolveLabelIds remoteLbl 1000 cachedStateT1 mixedLabelInputs "T1").2.2
      = [RemoteCall.teamLabels "T1"] ∧
    (resolveLabelIds remoteLbl 1000 cachedStateT1 mixedLabelInputs "T1").1
      = .ok ["aaaaaaaa-bbbb-cccc-dddd-eeeeeeeeeeee", "lbl-1", "lbl-2"] :=
  ⟨by decide, by decide,
   (resolveLabelIds_single_fetch_and_order remoteLbl 1000 mixedLabelInputs "T1"
     (by decide)).1 cachedStateT1,
   ((resolveLabelIds_single_fetch_and_order remoteLbl 1000 mixedLabelInputs "T1"
      (by decide)).2.2 cachedStateT1 (by decide)).1,
   Eq.trans
     ((resolveLabelIds_single_fetch_and_order remoteLbl 1000 mixedLabelInputs "T1"
        (by decide)).2.2 cachedStateT1 (by decide)).2
     (by decide)⟩

/-! ## C9 — resolveIssueId discards all segments after the first two -/

theorem splitChar_ne_nil (sep : Char) : ∀ l : List Char, splitChar sep l ≠ []
  | [] => by simp [splitChar]
  | c :: cs => by
      rw [splitChar]
      split
      · simp
      · cases hs : splitChar sep cs with
        | nil => simp
        | cons h t => simp

theorem jsSplit_head_no_hyphen (input : String) :
    jsIncludes ((jsSplit '-' input).getD 0 "") '-' = false := by
  rw [jsSplit]
  cases hs : splitChar '-' input.toList with
  | nil => exact absurd hs (splitChar_ne_nil '-' input.toList)
  | cons h t =>
    have hh := splitChar_head_no_sep '-' input.toList
    rw [hs] at hh
    simp only [List.headD_cons] at hh
    simp only [List.map_cons, List.getD_cons_zero]
    simpa [jsIncludes, toList_mk] using hh

theorem dash_toList : ("-" : String).toList = ['-'] := rfl

theorem jsSplit_append_parts (a b junk : String)
    (ha : jsIncludes a '-' = false) (hb : jsIncludes b '-' = false) :
    jsSplit '-' (a ++ "-" ++ b ++ "-" ++ junk)
      = a :: b :: (splitChar '-' junk.toList).map (fun l => String.mk l) ∧
    jsSplit '-' (a ++ "-" ++ b) = [a, b] := by
  have ha' : '-' ∉ a.toList := by simpa [jsIncludes] using ha
  have hb' : '-' ∉ b.toList := by simpa [jsIncludes] using hb
  have hfull : (a ++ "-" ++ b ++ "-" ++ junk).toList
      = a.toList ++ '-' :: (b.toList ++ '-' :: junk.toList) := by
    simp [toList_append, dash_toList, List.append_assoc]
  have htr : (a ++ "-" ++ b).toList = a.toList ++ '-' :: b.toList := by
    simp [toList_append, dash_toList, List.append_assoc]
  constructor
  · rw [jsSplit, hfull, splitChar_append_sep '-' _ _ ha', splitChar_append_sep '-' _ _ hb']
    simp [mk_toList]
  · rw [jsSplit, htr, splitChar_append_sep '-' _ _ ha', splitChar_no_sep '-' _ hb']
    simp [mk_toList]

/-- C9: `resolveIssueId` destructures only the first two hyphen-separated
segments. Every remote issue lookup it issues queries the first segment as
team key — which therefore can never contain a hyphen, so a hyphenated team
key can never match — and appending further hyphen-separated segments after
the first two changes neither the remote calls issued nor which id (if any)
is successfully resolved. -/
theorem resolveIssueId_uses_first_two_segments (remote : Remote) (s : ResolverState) :
    (∀ (input k : String) (n : Int),
      RemoteCall.issueByIdentifier k n ∈ (resolveIssueId remote s input).2.2 →
      k = (jsSplit '-' input).getD 0 "" ∧ jsIncludes k '-' = false) ∧
    (∀ a b junk : String, jsIncludes a '-' = false → jsIncludes b '-' = false →
      isUuidShaped (a ++ "-" ++ b ++ "-" ++ junk) = false →
      isUuidShaped (a ++ "-" ++ b) = false →
      ((resolveIssueId remote s (a ++ "-" ++ b ++ "-" ++ junk)).2.2
          = (resolveIssueId remote s (a ++ "-" ++ b)).2.2 ∧
       ∀ id, (resolveIssueId remote s (a ++ "-" ++ b ++ "-" ++ junk)).1 = .ok id ↔
             (resolveIssueId remote s (a ++ "-" ++ b)).1 = .ok id)) := by
  constructor
  · intro input k n hmem
    have hkey : ∀ n', RemoteCall.issueByIdentifier k n'
        ∈ (resolveIssueId remote s input).2.2 → k = (jsSplit '-' input).getD 0 "" := by
      intro n' hm
      rw [resolveIssueId] at hm
      split at hm
      · simp at hm
      · split at hm
        · dsimp only at hm
          split at hm
          · simp at hm
          · split at hm
            all_goals
              simp only [List.mem_singleton, RemoteCall.issueByIdentifier.injEq] at hm
            all_goals exact hm.1
        · simp at hm
    have hk := hkey n hmem
    exact ⟨hk, hk ▸ jsSplit_head_no_hyphen input⟩
  · intro a b junk ha hb hufull hutr
    obtain ⟨hsf, hst⟩ := jsSplit_append_parts a b junk ha hb
    have hif : jsIncludes (a ++ "-" ++ b ++ "-" ++ junk) '-' = true := by
      simp [jsIncludes, toList_append, dash_toList]
    have hit : jsIncludes (a ++ "-" ++ b) '-' = true := by
      simp [jsIncludes, toList_append, dash_toList]
    rw [resolveIssueId, resolveIssueId, if_neg (by simp [hufull]), if_pos hif,
      if_neg (by simp [hutr]), if_pos hit]
    dsimp only
    rw [hsf, hst]
    simp only [List.getD_cons_zero, List.getD_cons_succ]
    constructor
    · cases hpi : jsParseInt b with
      | none => simp
      | some n =>
        cases hr : remote.issueByIdentifier a n with
        | none => simp [hr]
        | some ids => cases ids <;> simp [hr]
    · intro id
      cases hpi : jsParseInt b with
      | none => simp
      | some n =>
        cases hr : remote.issueByIdentifier a n with
        | none => simp [hr]
        | some ids => cases ids <;> simp [hr]

/-- C9 witness: `OPS-42-extra` behaves exactly like `OPS-42` — it queries
team `OPS` for issue 42 and resolves to the same id. -/
theorem resolveIssueId_uses_first_two_segments_witness :
    ((resolveIssueId remoteIssue freshState ("OPS" ++ "-" ++ "42" ++ "-" ++ "extra")).2.2
        = (resolveIssueId remoteIssue freshState ("OPS" ++ "-" ++ "42")).2.2 ∧
      ∀ id, (resolveIssueId remoteIssue freshState
              ("OPS" ++ "-" ++ "42" ++ "-" ++ "extra")).1 = .ok id ↔
            (resolveIssueId remoteIssue freshState ("OPS" ++ "-" ++ "42")).1 = .ok id) ∧
    (resolveIssueId remoteIssue freshState "OPS-42-extra").2.2
      = [RemoteCall.issueByIdentifier "OPS" 42] :=
  ⟨(resolveIssueId_uses_first_two_segments remoteIssue freshState).2 "OPS" "42" "extra"
     (by decide) (by decide) (by decide) (by decide),
   by decide⟩

/-! ## C10 — failed batch resolution still mutates the cache -/

/-- The loop run performed by `resolveLabelIds` when every non-canonical
input name misses the cache. -/
def labelFetch (remote : Remote) (inputs : List String) (teamId : String) :
    Except ApiError (List String) × List (String × String) :=
  labelLoop ((remote.teamLabels teamId).getD [])
    (inputs.filter fun x => !(isUuidShaped x)) []
    (inputs.filter isUuidShaped)

/-- The result of `resolveLabelIds` on the fully-uncached path (non-empty
teamId, no cached entry for the team, at least one non-canonical name). -/
theorem resolveLabelIds_uncached (remote : Remote) (now : Nat) (s : ResolverState)
    (inputs : List String) (teamId : String)
    (hT : teamId ≠ "") (hC : mapGet s.cache.labels teamId = none)
    (hn : inputs.filter (fun x => !(isUuidShaped x)) ≠ []) :
    resolveLabelIds remote now s inputs teamId
      = ((labelFetch remote inputs teamId).1,
         { s with cache := { s.cache with
            labels := mapSet s.cache.labels teamId (labelFetch remote inputs teamId).2 } },
         [RemoteCall.teamLabels teamId]) := by
  have hpart : (if shouldRefreshCache now s then none else mapGet s.cache.labels teamId)
      = none := by
    rw [hC, ite_self]
  rw [resolveLabelIds, if_neg hT]
  simp [hpart, hC, hn, labelFetch]

/-- C10: when some uncached name has no case-insensitive match in the fetched
label list, the call fails with that first missing name's 404 NotFound — but
every uncached name processed before it has already been written to the
team-scoped label cache of the returned state, while names after the missing
one are left uncached. -/
theorem resolveLabelIds_caches_prefix_before_failure (remote : Remote) (now : Nat)
    (s : ResolverState) (inputs pre post : List String) (teamId missing : String)
    (hT : teamId ≠ "") (hC : mapGet s.cache.labels teamId = none)
    (hsplit : inputs.filter (fun x => !(isUuidShaped x)) = pre ++ missing :: post)
    (hpre : ∀ x ∈ pre,
      (((remote.teamLabels teamId).getD []).find? fun l => jsToLower l.name == jsToLower x).isSome)
    (hmiss : (((remote.teamLabels teamId).getD []).find?
        fun l => jsToLower l.name == jsToLower missing) = none) :
    (resolveLabelIds remote now s inputs teamId).1
      = .error ⟨404, "Label \"" ++ missing ++ "\" not found in team", INVALID_PARAMS, none⟩ ∧
    (∀ x ∈ pre,
      mapGet ((mapGet (resolveLabelIds remote now s inputs teamId).2.1.cache.labels
          teamId).getD []) x
        = some (foundId ((remote.teamLabels teamId).getD []) x)) ∧
    (∀ x ∈ post, x ∉ pre →
      mapGet ((mapGet (resolveLabelIds remote now s inputs teamId).2.1.cache.labels
          teamId).getD []) x
        = none) := by
  have hn : inputs.filter (fun x => !(isUuidShaped x)) ≠ [] := by
    rw [hsplit]
    cases pre <;> simp
  have hres := resolveLabelIds_uncached remote now s inputs teamId hT hC hn
  simp only [labelFetch] at hres
  rw [hsplit] at hres
  have hloop : labelLoop ((remote.teamLabels teamId).getD []) (pre ++ missing :: post) []
      (inputs.filter isUuidShaped)
      = (.error ⟨404, "Label \"" ++ missing ++ "\" not found in team", INVALID_PARAMS, none⟩,
         pre.foldl (fun mm x => mapSet mm x (foundId ((remote.teamLabels teamId).getD []) x))
           []) := by
    rw [labelLoop_found_front _ pre (missing :: post) [] _ hpre, labelLoop]
    simp [hmiss]
  rw [hloop] at hres
  refine ⟨?_, ?_, ?_⟩
  · rw [hres]
  · intro x hx
    rw [hres]
    dsimp only
    rw [mapGet_mapSet_self, Option.getD_some, mapGet_foldl_mapSet, if_pos hx]
  · intro x _ hnp
    rw [hres]
    dsimp only
    rw [mapGet_mapSet_self, Option.getD_some, mapGet_foldl_mapSet, if_neg hnp]
    rfl

/-- C10 witness: resolving `["Bug", "Nope", "Feature"]` against a team whose
labels are `Bug`/`Feature` fails on `Nope`, yet `Bug` is already cached in the
returned state while `Feature` is not. -/
theorem resolveLabelIds_caches_prefix_before_failure_witness :
    (resolveLabelIds remoteLbl 1000 freshState ["Bug", "Nope", "Feature"] "T1").1
      = .error ⟨404, "Label \"Nope\" not found in team", INVALID_PARAMS, none⟩ ∧
    mapGet ((mapGet (resolveLabelIds remoteLbl 1000 freshState
        ["Bug", "Nope", "Feature"] "T1").2.1.cache.labels "T1").getD []) "Bug"
      = some (foundId ((remoteLbl.teamLabels "T1").getD []) "Bug") ∧
    mapGet ((mapGet (resolveLabelIds remoteLbl 1000 freshState
        ["Bug", "Nope", "Feature"] "T1").2.1.cache.labels "T1").getD []) "Feature"
      = none :=
  ⟨(resolveLabelIds_caches_prefix_before_failure remoteLbl 1000 freshState
      ["Bug", "Nope", "Feature"] ["Bug"] ["Feature"] "T1" "Nope"
      (by decide) (by decide) (by decide) (by decide) (by decide)).1,
   (resolveLabelIds_caches_prefix_before_failure remoteLbl 1000 freshState
      ["Bug", "Nope", "Feature"] ["Bug"] ["Feature"] "T1" "Nope"
      (by decide) (by decide) (by decide) (by decide) (by decide)).2.1 "Bug" (by decide),
   (resolveLabelIds_caches_prefix_before_failure remoteLbl 1000 freshState
      ["Bug", "Nope", "Feature"] ["Bug"] ["Feature"] "T1" "Nope"
      (by decide) (by decide) (by decide) (by decide) (by decide)).2.2 "Feature"
     (by decide) (by decide)⟩

end LinearMcp
